import Mathlib

/-!
Verification of the `tts-number-generator` repository.

Shallow embedding of the core logic of `src/generate_numbers.py`,
`src/generate_numbers_elevenlabs.py` and `src/config.py`:

* the Lexicalizer `number_to_words` (the method bodies are textually
  identical in both provider variants);
* the per-item retry loop `generate_single_audio`, with the remote
  Adapter modelled as an environment mapping the global call index to
  that call's outcome;
* the range loop `generate_batch` and the pass loop `retry_failed`,
  instrumented with an explicit event trace (Adapter calls, the three
  distinct sleep sites, artifact writes);
* the config-file merge `Config._load_config` and the credential gate
  in `main`.
-/

/-- The `ones` word table of `number_to_words`
(`src/generate_numbers.py` lines 80-83). -/
def onesWords : List String :=
  ["", "one", "two", "three", "four", "five", "six", "seven",
   "eight", "nine", "ten", "eleven", "twelve", "thirteen",
   "fourteen", "fifteen", "sixteen", "seventeen", "eighteen",
   "nineteen"]

/-- The `tens` word table of `number_to_words`
(`src/generate_numbers.py` lines 84-85). -/
def tensWords : List String :=
  ["", "", "twenty", "thirty", "forty", "fifty", "sixty",
   "seventy", "eighty", "ninety"]

/-- Fuel-indexed translation of `TTSNumberGenerator.number_to_words`
(`src/generate_numbers.py` lines 77-132; the body of
`ElevenLabsTTSNumberGenerator.number_to_words`, lines 103-158 of
`src/generate_numbers_elevenlabs.py`, is textually identical).
Every recursive call of the Python function is at a strictly smaller
argument, so any fuel above `num` reproduces the source recursion
exactly (see `numberToWordsF_small`); the fuel-0 fallback is never
reached from `numberToWords`.  List indexing in the source is always
in bounds on these branches, so it is rendered with `List.getD`. -/
def numberToWordsF : Nat → Nat → String
  | 0, num => toString num
  | fuel + 1, num =>
    if num = 0 then "zero"
    else if num < 20 then onesWords.getD num ""
    else if num < 100 then
      let result := tensWords.getD (num / 10) ""
      if num % 10 ≠ 0 then result ++ " " ++ onesWords.getD (num % 10) ""
      else result
    else if num = 100 then "one hundred"
    else if num < 200 then
      -- 101-199: "one oh one", "one oh two", etc.
      let remainder := num % 100
      if remainder < 10 then "one oh " ++ onesWords.getD remainder ""
      else "one " ++ numberToWordsF fuel remainder
    else if num < 300 then
      -- 200-299: "two hundred", "two oh one", etc.
      let remainder := num % 100
      if remainder = 0 then "two hundred"
      else if remainder < 10 then "two oh " ++ onesWords.getD remainder ""
      else "two " ++ numberToWordsF fuel remainder
    else if num < 1000 then
      -- 300-999: handle similarly
      let hundredsDigit := num / 100
      let remainder := num % 100
      if remainder = 0 then onesWords.getD hundredsDigit "" ++ " hundred"
      else if remainder < 10 then
        onesWords.getD hundredsDigit "" ++ " oh " ++ onesWords.getD remainder ""
      else onesWords.getD hundredsDigit "" ++ " " ++ numberToWordsF fuel remainder
    else if num < 1000000 then
      let thousands := num / 1000
      let result := numberToWordsF fuel thousands ++ " thousand"
      let remainder := num % 1000
      if remainder ≠ 0 then result ++ " " ++ numberToWordsF fuel remainder
      else result
    else toString num  -- Fallback for numbers > 999,999

/-- `TTSNumberGenerator.number_to_words` on a nonnegative argument. -/
def numberToWords (num : Nat) : String := numberToWordsF (num + 1) num

/-- `ElevenLabsTTSNumberGenerator.number_to_words`: the method body is
textually identical to the OpenAI variant, so it is the same function
of the same tables. -/
def numberToWordsEL (num : Nat) : String := numberToWordsF (num + 1) num

/-- On arguments below 100 the body of `number_to_words` makes no
recursive call, so the fuel of `numberToWordsF` is irrelevant there as
long as it is positive. -/
theorem numberToWordsF_small (m : Nat) (hm : m < 100) (f g : Nat)
    (hf : 0 < f) (hg : 0 < g) :
    numberToWordsF f m = numberToWordsF g m := by
  obtain ⟨f', rfl⟩ : ∃ k, f = k + 1 := ⟨f - 1, by omega⟩
  obtain ⟨g', rfl⟩ : ∃ k, g = k + 1 := ⟨g - 1, by omega⟩
  simp only [numberToWordsF]
  by_cases h0 : m = 0
  · simp only [if_pos h0]
  · simp only [if_neg h0]
    by_cases h1 : m < 20
    · simp only [if_pos h1]
    · simp only [if_neg h1, if_pos hm]

/-- C1: the Lexicalizer `number_to_words` (identical in both provider
variants: `numberToWords = numberToWordsEL` pointwise) satisfies all
twelve spec test vectors. -/
theorem numberToWords_test_vectors :
    (∀ n, numberToWords n = numberToWordsEL n) ∧
    numberToWords 0 = "zero" ∧
    numberToWords 15 = "fifteen" ∧
    numberToWords 42 = "forty two" ∧
    numberToWords 100 = "one hundred" ∧
    numberToWords 101 = "one oh one" ∧
    numberToWords 115 = "one fifteen" ∧
    numberToWords 200 = "two hundred" ∧
    numberToWords 250 = "two fifty" ∧
    numberToWords 305 = "three oh five" ∧
    numberToWords 999 = "nine ninety nine" ∧
    numberToWords 1000 = "one thousand" ∧
    numberToWords 8000 = "eight thousand" :=
  ⟨fun _ => rfl, rfl, rfl, rfl, rfl, rfl, rfl, rfl, rfl, rfl, rfl, rfl, rfl⟩

/-- C4 counterexample: the claim reads the 300-999 band as
`word(h) ++ " hundred oh " ++ word(r)` for remainders 1-9 and
`word(h) ++ " hundred " ++ words(r)` for remainders ≥ 10, but the code
emits "hundred" only when the remainder is 0: at input 305 the code
produces "three oh five", not "three hundred oh five". -/
theorem numberToWords_hundreds_claim_false :
    numberToWords 305 = "three oh five" ∧
    "three oh five" ≠ "three hundred oh five" := by
  exact ⟨rfl, by decide⟩

/-- C4 (amended): for `300 ≤ n ≤ 999` with `h = n / 100`, `r = n % 100`:
if `r = 0` the result is `word(h) ++ " hundred"`; if `1 ≤ r ≤ 9` it is
`word(h) ++ " oh " ++ word(r)` (no "hundred"); if `r ≥ 10` it is
`word(h) ++ " " ++ number_to_words(r)` (no "hundred"). -/
theorem numberToWords_hundreds_band (n : Nat) (h3 : 300 ≤ n) (h9 : n ≤ 999) :
    (n % 100 = 0 →
      numberToWords n = onesWords.getD (n / 100) "" ++ " hundred") ∧
    (1 ≤ n % 100 → n % 100 ≤ 9 →
      numberToWords n =
        onesWords.getD (n / 100) "" ++ " oh " ++ onesWords.getD (n % 100) "") ∧
    (10 ≤ n % 100 →
      numberToWords n =
        onesWords.getD (n / 100) "" ++ " " ++ numberToWords (n % 100)) := by
  have hb : numberToWords n =
      (if n % 100 = 0 then onesWords.getD (n / 100) "" ++ " hundred"
       else if n % 100 < 10 then
         onesWords.getD (n / 100) "" ++ " oh " ++ onesWords.getD (n % 100) ""
       else onesWords.getD (n / 100) "" ++ " " ++ numberToWordsF n (n % 100)) := by
    show numberToWordsF (n + 1) n = _
    simp only [numberToWordsF]
    rw [if_neg (by omega), if_neg (by omega), if_neg (by omega),
        if_neg (by omega), if_neg (by omega), if_neg (by omega),
        if_pos (by omega)]
  refine ⟨fun hr => ?_, fun hr1 hr9 => ?_, fun hr => ?_⟩
  · rw [hb, if_pos hr]
  · rw [hb, if_neg (by omega), if_pos (by omega)]
  · rw [hb, if_neg (by omega), if_neg (by omega),
        numberToWordsF_small (n % 100) (by omega) n (n % 100 + 1)
          (by omega) (by omega)]
    rfl

/-- C4 witness: the amended band law evaluated at 300, 305 and 999. -/
theorem numberToWords_hundreds_band_witness :
    numberToWords 300 = onesWords.getD 3 "" ++ " hundred" ∧
    numberToWords 305 = onesWords.getD 3 "" ++ " oh " ++ onesWords.getD 5 "" ∧
    numberToWords 999 = onesWords.getD 9 "" ++ " " ++ numberToWords 99 :=
  ⟨(numberToWords_hundreds_band 300 (by decide) (by decide)).1 (by decide),
   (numberToWords_hundreds_band 305 (by decide) (by decide)).2.1
     (by decide) (by decide),
   (numberToWords_hundreds_band 999 (by decide) (by decide)).2.2 (by decide)⟩

/-- Python list indexing `xs[i]` for an arbitrary integer index: a
negative index counts from the end of the list (`len(xs) + i`); an
index out of range on either side raises `IndexError`, rendered as
`none`. -/
def pyGet (xs : List String) (i : Int) : Option String :=
  let j : Int := if i < 0 then (xs.length : Int) + i else i
  if 0 ≤ j ∧ j < (xs.length : Int) then xs[j.toNat]? else none

/-- `number_to_words` at an arbitrary Python integer.  A negative
argument is nonzero and satisfies `num < 20`, so the source evaluates
`ones[num]` with Python indexing semantics (`pyGet`); on arguments
≥ 20 every division, modulus and recursive call stays nonnegative and
the branch chain is the one embedded in `numberToWords`. -/
def numberToWordsI (num : Int) : Option String :=
  if num = 0 then some "zero"
  else if num < 20 then pyGet onesWords num
  else some (numberToWords num.toNat)

/-- C10: `number_to_words` is unguarded against negative input: for
`-20 ≤ num ≤ -1` it returns the word at Python negative index `num` of
the `ones` table (so `-1 ↦ "nineteen"` and `-20 ↦ ""`), and for
`num ≤ -21` the lookup raises `IndexError` (`none`) instead of
returning a string. -/
theorem numberToWords_negative_indexing (num : Int) (hneg : num ≤ -1) :
    (-20 ≤ num →
      numberToWordsI num = some (onesWords.getD (20 + num).toNat "")) ∧
    (num < -20 → numberToWordsI num = none) := by
  constructor
  · intro hlb
    interval_cases num <;> decide
  · intro hub
    have hlen : onesWords.length = 20 := by decide
    simp only [numberToWordsI, pyGet, hlen]
    split_ifs <;> first | rfl | omega

/-- C10 witness: `-1 ↦ some "nineteen"` (index 19 of the table),
`-20 ↦ some ""` (index 0), and `-21 ↦ none` (IndexError). -/
theorem numberToWords_negative_indexing_witness :
    numberToWordsI (-1) = some (onesWords.getD ((20 + (-1 : Int)).toNat) "") ∧
    numberToWordsI (-20) = some (onesWords.getD ((20 + (-20 : Int)).toNat) "") ∧
    numberToWordsI (-21) = none :=
  ⟨(numberToWords_negative_indexing (-1) (by decide)).1 (by decide),
   (numberToWords_negative_indexing (-20) (by decide)).1 (by decide),
   (numberToWords_negative_indexing (-21) (by decide)).2 (by decide)⟩

/-- Outcome of one remote Adapter call (`self.client.audio.speech.create`
in `generate_numbers.py` line 149): either audio bytes come back, or an
exception with message `m` is raised. -/
inductive AdapterResult where
  | ok : AdapterResult
  | err : String → AdapterResult
deriving DecidableEq

/-- Python `str.lower()`, embedded as per-character lowering. -/
def lowerStr (s : String) : String := String.mk (s.data.map Char.toLower)

/-- Python `pat in s` on strings: substring containment (`pat` is a
prefix of some tail of `s`). -/
def strContains (s pat : String) : Bool :=
  s.data.tails.any (fun t => pat.data.isPrefixOf t)

/-- The rate-limit classifier of `generate_single_audio`
(`src/generate_numbers.py` lines 164-167):
`error_msg = str(e).lower()` then
`"rate limit" in error_msg or "429" in error_msg`. -/
def isRateLimitedMsg (msg : String) : Bool :=
  strContains (lowerStr msg) "rate limit" || strContains (lowerStr msg) "429"

/-- The ElevenLabs variant's classifier
(`src/generate_numbers_elevenlabs.py` line 188) also accepts "quota". -/
def isRateLimitedMsgEL (msg : String) : Bool :=
  strContains (lowerStr msg) "rate limit" || strContains (lowerStr msg) "429" ||
    strContains (lowerStr msg) "quota"

/-- Observable actions of the pipeline, tagged by the source site that
performs them. -/
inductive Event where
  /-- one Adapter request, synthesizing `number_to_words n` -/
  | call : Nat → Event
  /-- `time.sleep(wait_time)` in `generate_single_audio` (line 174) -/
  | rlSleep : Nat → Event
  /-- `time.sleep(delay_between_requests)` in `generate_batch` (line 219) -/
  | interSleep : Nat → Event
  /-- `time.sleep(0.5)` in `retry_failed` (line 246) -/
  | retrySleep : Event
  /-- writing the artifact file `{n:05d}.wav` (lines 157-159) -/
  | write : Nat → Event
deriving DecidableEq

/-- The constant string returned as the failure reason of a
non-rate-limit error (`src/generate_numbers.py` lines 178-180): the
source reassigns `error_msg` to this logging template and returns the
template itself, unformatted. -/
def otherErrTemplate : String := "Error generating audio for %s: %s"

/-- The constant string returned once all rate-limit retries are
exhausted (`src/generate_numbers.py` lines 183-185); also returned as
the unformatted template. -/
def exhaustedTemplate : String :=
  "Failed to generate audio for %s after %s rate limit retries"

/-- `max_retries = 5` (`src/generate_numbers.py` line 136). -/
def maxRetries : Nat := 5

/-- Result of one `generate_single_audio` call: the returned pair
`(success, error)`, the next global Adapter-call index, and the events
performed. -/
structure GsaResult where
  ok : Bool
  err : Option String
  callIdx : Nat
  events : List Event
deriving DecidableEq

/-- The `while retry_count < max_retries` loop of
`generate_single_audio` (`src/generate_numbers.py` lines 139-185).
`fuel` is `max_retries - retry_count`, so fuel 0 is exactly the loop
guard failing (all retries exhausted).  The Adapter is an environment
`env` giving each global call's outcome; `acc` accumulates events in
reverse. -/
def gsaGo (classify : String → Bool) (env : Nat → AdapterResult)
    (retryDelay n : Nat) :
    (fuel retryCount callIdx : Nat) → List Event → GsaResult
  | 0, _, callIdx, acc =>
    -- All retries exhausted
    ⟨false, some exhaustedTemplate, callIdx, acc.reverse⟩
  | fuel + 1, retryCount, callIdx, acc =>
    match env callIdx with
    | .ok =>
      -- Generate speech succeeded; save to file; return True, None
      ⟨true, none, callIdx + 1,
        (Event.write n :: Event.call n :: acc).reverse⟩
    | .err m =>
      if classify m then
        -- rate limit: retry_count += 1; wait and continue
        let rc := retryCount + 1
        gsaGo classify env retryDelay n fuel rc (callIdx + 1)
          (Event.rlSleep (retryDelay * 2 ^ (rc - 1)) :: Event.call n :: acc)
      else
        -- Non-rate-limit error, don't retry
        ⟨false, some otherErrTemplate, callIdx + 1,
          (Event.call n :: acc).reverse⟩

/-- `TTSNumberGenerator.generate_single_audio(number, retry_delay)`
(`src/generate_numbers.py` lines 134-185), with the Adapter abstracted
as `env` and `callIdx` the global index of the next Adapter call. -/
def generateSingleAudio (env : Nat → AdapterResult) (n callIdx retryDelay : Nat) :
    GsaResult :=
  gsaGo isRateLimitedMsg env retryDelay n maxRetries 0 callIdx []

/-- Mutable state of a generator instance: the artifact files present
in `number_audio_files/`, the `failed_numbers` list, and the global
Adapter-call counter of the environment. -/
structure BatchState where
  files : List Nat
  failed : List (Nat × Option String)
  callIdx : Nat
deriving DecidableEq

/-- The `for i in range(start_num, end_num + 1)` loop of
`generate_batch` (`src/generate_numbers.py` lines 198-219), over the
explicit list of remaining indices.  A pre-existing artifact is
skipped via `continue` (which also bypasses the inter-request sleep);
otherwise `generate_single_audio(i)` runs with the default
`retry_delay = 60`, the failure pair is appended on failure, and the
inter-request sleep happens whenever `i < end_num`. -/
def genBatchGo (env : Nat → AdapterResult) (delay endNum : Nat) :
    List Nat → Nat → BatchState → Nat × BatchState × List Event
  | [], successful, st => (successful, st, [])
  | i :: rest, successful, st =>
    if i ∈ st.files then
      -- File for i already exists, skipping (continue)
      genBatchGo env delay endNum rest (successful + 1) st
    else
      let r := generateSingleAudio env i st.callIdx 60
      let st' : BatchState :=
        ⟨if r.ok then i :: st.files else st.files,
         if r.ok then st.failed else st.failed ++ [(i, r.err)],
         r.callIdx⟩
      let sleepEvs : List Event :=
        if i < endNum then [Event.interSleep delay] else []
      let res := genBatchGo env delay endNum rest
        (if r.ok then successful + 1 else successful) st'
      (res.1, res.2.1, r.events ++ sleepEvs ++ res.2.2)

/-- `TTSNumberGenerator.generate_batch(start_num, end_num,
delay_between_requests)` (`src/generate_numbers.py` lines 187-223):
returns the `successful` count, the final state, and the event trace. -/
def generateBatch (env : Nat → AdapterResult) (startNum endNum delay : Nat)
    (st : BatchState) : Nat × BatchState × List Event :=
  genBatchGo env delay endNum (List.range' startNum (endNum + 1 - startNum)) 0 st

/-- One retry pass of `retry_failed` (`src/generate_numbers.py` lines
241-246): every item of the copied failed list is re-attempted once via
`generate_single_audio`, still-failing items are re-appended, and
`time.sleep(0.5)` runs after every item. -/
def retryPass (env : Nat → AdapterResult) :
    List (Nat × Option String) → BatchState → BatchState × List Event
  | [], st => (st, [])
  | (n, _) :: rest, st =>
    let r := generateSingleAudio env n st.callIdx 60
    let st' : BatchState :=
      ⟨if r.ok then n :: st.files else st.files,
       if r.ok then st.failed else st.failed ++ [(n, r.err)],
       r.callIdx⟩
    let res := retryPass env rest st'
    (res.1, r.events ++ [Event.retrySleep] ++ res.2)

/-- The `for retry_count in range(max_retries)` loop of `retry_failed`
(`src/generate_numbers.py` lines 233-246): each iteration breaks if the
failed list is empty, otherwise copies and clears it and runs one
`retryPass` over the copy. -/
def retryFailedGo (env : Nat → AdapterResult) :
    Nat → BatchState → BatchState × List Event
  | 0, st => (st, [])
  | passes + 1, st =>
    if st.failed = [] then (st, [])
    else
      let p := retryPass env st.failed ⟨st.files, [], st.callIdx⟩
      let res := retryFailedGo env passes p.1
      (res.1, p.2 ++ res.2)

/-- `TTSNumberGenerator.retry_failed(max_retries=3)`
(`src/generate_numbers.py` lines 225-246): early return on an empty
failed list, then up to 3 passes. -/
def retryFailed (env : Nat → AdapterResult) (st : BatchState) :
    BatchState × List Event :=
  if st.failed = [] then (st, []) else retryFailedGo env 3 st

/-- Number of occurrences of an event in a trace. -/
def countEvent (e : Event) (evs : List Event) : Nat :=
  (evs.filter (fun x => x = e)).length

/-- Unrolling `gsaGo`: a rate-limited failure increments the retry
count, sleeps `retry_delay * 2^(attempt-1)` and continues. -/
theorem gsaGo_rl {classify : String → Bool} {env : Nat → AdapterResult}
    {retryDelay n fuel retryCount callIdx : Nat} {acc : List Event}
    {m : String} (hm : env callIdx = .err m) (hc : classify m = true) :
    gsaGo classify env retryDelay n (fuel + 1) retryCount callIdx acc =
      gsaGo classify env retryDelay n fuel (retryCount + 1) (callIdx + 1)
        (Event.rlSleep (retryDelay * 2 ^ retryCount) :: Event.call n :: acc) := by
  simp only [gsaGo, hm, hc, if_true, Nat.add_sub_cancel]

/-- Unrolling `gsaGo`: a successful Adapter call writes the file and
returns `(True, None)`. -/
theorem gsaGo_ok {classify : String → Bool} {env : Nat → AdapterResult}
    {retryDelay n fuel retryCount callIdx : Nat} {acc : List Event}
    (hm : env callIdx = .ok) :
    gsaGo classify env retryDelay n (fuel + 1) retryCount callIdx acc =
      ⟨true, none, callIdx + 1,
        (Event.write n :: Event.call n :: acc).reverse⟩ := by
  simp only [gsaGo, hm]

/-- Unrolling `gsaGo`: a non-rate-limit error returns immediately with
the constant template as reason. -/
theorem gsaGo_other {classify : String → Bool} {env : Nat → AdapterResult}
    {retryDelay n fuel retryCount callIdx : Nat} {acc : List Event}
    {m : String} (hm : env callIdx = .err m) (hc : classify m = false) :
    gsaGo classify env retryDelay n (fuel + 1) retryCount callIdx acc =
      ⟨false, some otherErrTemplate, callIdx + 1,
        (Event.call n :: acc).reverse⟩ := by
  simp only [gsaGo, hm, hc, if_false, Bool.false_eq_true]

/-- C2: if the Adapter keeps answering rate-limited, the item is
retried up to 5 attempts total with waits `d·2^(attempt-1)`: with 4
rate-limited failures then a success, the sleeps are exactly
`d, 2d, 4d, 8d` and the call succeeds on the 5th Adapter call; with 5
rate-limited failures the call returns the terminal exhausted-retries
failure after exactly 5 Adapter calls (no 6th). -/
theorem generateSingleAudio_rate_limit_backoff
    (env : Nat → AdapterResult) (d c n : Nat) :
    ((∀ k, k < 4 → ∃ m, env (c + k) = .err m ∧ isRateLimitedMsg m = true) →
      env (c + 4) = .ok →
      generateSingleAudio env n c d =
        ⟨true, none, c + 5,
         [Event.call n, Event.rlSleep (d * 1), Event.call n,
          Event.rlSleep (d * 2), Event.call n, Event.rlSleep (d * 4),
          Event.call n, Event.rlSleep (d * 8), Event.call n,
          Event.write n]⟩) ∧
    ((∀ k, k < 5 → ∃ m, env (c + k) = .err m ∧ isRateLimitedMsg m = true) →
      generateSingleAudio env n c d =
        ⟨false, some exhaustedTemplate, c + 5,
         [Event.call n, Event.rlSleep (d * 1), Event.call n,
          Event.rlSleep (d * 2), Event.call n, Event.rlSleep (d * 4),
          Event.call n, Event.rlSleep (d * 8), Event.call n,
          Event.rlSleep (d * 16)]⟩) := by
  constructor
  · intro hrl hok
    obtain ⟨m0, e0, c0⟩ := hrl 0 (by omega)
    obtain ⟨m1, e1, c1⟩ := hrl 1 (by omega)
    obtain ⟨m2, e2, c2⟩ := hrl 2 (by omega)
    obtain ⟨m3, e3, c3⟩ := hrl 3 (by omega)
    have e0' : env c = .err m0 := by rwa [Nat.add_zero] at e0
    show gsaGo isRateLimitedMsg env d n 5 0 c [] = _
    rw [show (5 : Nat) = 4 + 1 from rfl, gsaGo_rl e0' c0,
        show (4 : Nat) = 3 + 1 from rfl, gsaGo_rl e1 c1,
        show (3 : Nat) = 2 + 1 from rfl, gsaGo_rl e2 c2,
        show (2 : Nat) = 1 + 1 from rfl, gsaGo_rl e3 c3,
        show (1 : Nat) = 0 + 1 from rfl, gsaGo_ok hok]
    simp [GsaResult.mk.injEq]
  · intro hrl
    obtain ⟨m0, e0, c0⟩ := hrl 0 (by omega)
    obtain ⟨m1, e1, c1⟩ := hrl 1 (by omega)
    obtain ⟨m2, e2, c2⟩ := hrl 2 (by omega)
    obtain ⟨m3, e3, c3⟩ := hrl 3 (by omega)
    obtain ⟨m4, e4, c4⟩ := hrl 4 (by omega)
    have e0' : env c = .err m0 := by rwa [Nat.add_zero] at e0
    show gsaGo isRateLimitedMsg env d n 5 0 c [] = _
    rw [show (5 : Nat) = 4 + 1 from rfl, gsaGo_rl e0' c0,
        show (4 : Nat) = 3 + 1 from rfl, gsaGo_rl e1 c1,
        show (3 : Nat) = 2 + 1 from rfl, gsaGo_rl e2 c2,
        show (2 : Nat) = 1 + 1 from rfl, gsaGo_rl e3 c3,
        show (1 : Nat) = 0 + 1 from rfl, gsaGo_rl e4 c4]
    simp [gsaGo, GsaResult.mk.injEq]

/-- C2 witness: with base delay 60 and an Adapter answering
"Rate limit exceeded" four times then succeeding, the waits are
60, 120, 240, 480 and the 5th call succeeds; with an always
rate-limited Adapter the result is the terminal exhausted failure
after 5 calls. -/
theorem generateSingleAudio_rate_limit_backoff_witness :
    generateSingleAudio
        (fun k => if k < 4 then .err "Rate limit exceeded" else .ok) 7 0 60 =
      ⟨true, none, 5,
       [Event.call 7, Event.rlSleep (60 * 1), Event.call 7,
        Event.rlSleep (60 * 2), Event.call 7, Event.rlSleep (60 * 4),
        Event.call 7, Event.rlSleep (60 * 8), Event.call 7,
        Event.write 7]⟩ ∧
    generateSingleAudio (fun _ => .err "HTTP 429 Too Many Requests") 7 0 60 =
      ⟨false, some exhaustedTemplate, 5,
       [Event.call 7, Event.rlSleep (60 * 1), Event.call 7,
        Event.rlSleep (60 * 2), Event.call 7, Event.rlSleep (60 * 4),
        Event.call 7, Event.rlSleep (60 * 8), Event.call 7,
        Event.rlSleep (60 * 16)]⟩ :=
  ⟨(generateSingleAudio_rate_limit_backoff
      (fun k => if k < 4 then .err "Rate limit exceeded" else .ok) 60 0 7).1
      (by
        intro k hk
        refine ⟨"Rate limit exceeded", ?_, by decide⟩
        have hlt : 0 + k < 4 := by omega
        simp only [if_pos hlt])
      (by decide),
   (generateSingleAudio_rate_limit_backoff
      (fun _ => .err "HTTP 429 Too Many Requests") 60 0 7).2
      (by intro k hk; exact ⟨"HTTP 429 Too Many Requests", rfl, by decide⟩)⟩

/-- C3 (code evaluation): a non-rate-limited Adapter error makes
`generate_single_audio` fail immediately after that single attempt —
one Adapter call, zero sleeps, zero further retries — but the reason it
returns (and that `generate_batch` appends to `failed_numbers`) is the
constant logging template `"Error generating audio for %s: %s"`, not
the raw error text `m` of the exception. -/
theorem generateSingleAudio_other_error_immediate
    (env : Nat → AdapterResult) (d c n : Nat) (m : String)
    (hm : env c = .err m) (hc : isRateLimitedMsg m = false) :
    generateSingleAudio env n c d =
      ⟨false, some otherErrTemplate, c + 1, [Event.call n]⟩ ∧
    (m ≠ otherErrTemplate → (generateSingleAudio env n c d).err ≠ some m) ∧
    (∀ delay endNum s (st : BatchState), st.callIdx = c → n ∉ st.files →
      (genBatchGo env delay endNum [n] s st).2.1.failed =
        st.failed ++ [(n, some otherErrTemplate)]) := by
  have hgsaAll : ∀ d', generateSingleAudio env n c d' =
      ⟨false, some otherErrTemplate, c + 1, [Event.call n]⟩ := by
    intro d'
    show gsaGo isRateLimitedMsg env d' n 5 0 c [] = _
    rw [show (5 : Nat) = 4 + 1 from rfl, gsaGo_other hm hc]
    rfl
  refine ⟨hgsaAll d, ?_, ?_⟩
  · intro hne
    rw [hgsaAll d]
    simp only [ne_eq, Option.some.injEq]
    exact fun h => hne h.symm
  · intro delay endNum s st hci hnf
    simp only [genBatchGo, if_neg hnf]
    rw [hci, hgsaAll 60]
    rfl

/-- C3 witness: with the Adapter raising a plain error "boom", the
call fails at once with the template reason, which differs from the
raw text "boom"; a singleton batch records `(n, template)`. -/
theorem generateSingleAudio_other_error_immediate_witness :
    generateSingleAudio (fun _ => .err "boom") 3 0 60 =
      ⟨false, some otherErrTemplate, 1, [Event.call 3]⟩ ∧
    (generateSingleAudio (fun _ => .err "boom") 3 0 60).err ≠ some "boom" ∧
    (genBatchGo (fun _ => .err "boom") 20 3 [3] 0 ⟨[], [], 0⟩).2.1.failed =
      [] ++ [(3, some otherErrTemplate)] :=
  ⟨(generateSingleAudio_other_error_immediate
      (fun _ => .err "boom") 60 0 3 "boom" rfl (by decide)).1,
   (generateSingleAudio_other_error_immediate
      (fun _ => .err "boom") 60 0 3 "boom" rfl (by decide)).2.1 (by decide),
   (generateSingleAudio_other_error_immediate
      (fun _ => .err "boom") 60 0 3 "boom" rfl (by decide)).2.2
      20 3 0 ⟨[], [], 0⟩ rfl (by decide)⟩

/-- Every event emitted by the `generate_single_audio` loop is an
Adapter call for `n`, a rate-limit sleep, or the artifact write for
`n`. -/
theorem gsaGo_events_mem {classify : String → Bool} {env : Nat → AdapterResult}
    {retryDelay n : Nat} (P : Event → Prop) (hcall : P (Event.call n))
    (hwrite : P (Event.write n)) (hrl : ∀ t, P (Event.rlSleep t)) :
    ∀ (fuel retryCount callIdx : Nat) (acc : List Event),
      (∀ e ∈ acc, P e) →
      ∀ e ∈ (gsaGo classify env retryDelay n fuel retryCount callIdx acc).events,
        P e := by
  intro fuel
  induction fuel with
  | zero =>
    intro retryCount callIdx acc hacc e he
    simp only [gsaGo, List.mem_reverse] at he
    exact hacc e he
  | succ fuel ih =>
    intro retryCount callIdx acc hacc e he
    cases henv : env callIdx with
    | ok =>
      rw [gsaGo_ok henv] at he
      simp only [List.mem_reverse, List.mem_cons] at he
      rcases he with rfl | rfl | he
      · exact hwrite
      · exact hcall
      · exact hacc e he
    | err m =>
      by_cases hcl : classify m
      · rw [gsaGo_rl henv hcl] at he
        refine ih _ _ _ ?_ e he
        intro x hx
        simp only [List.mem_cons] at hx
        rcases hx with rfl | rfl | hx
        · exact hrl _
        · exact hcall
        · exact hacc x hx
      · have hcl' : classify m = false := by
          revert hcl; cases classify m <;> simp
        rw [gsaGo_other henv hcl'] at he
        simp only [List.mem_reverse, List.mem_cons] at he
        rcases he with rfl | he
        · exact hcall
        · exact hacc e he

/-- Shape of the events of one `generate_single_audio` call. -/
theorem generateSingleAudio_events (env : Nat → AdapterResult) (n c d : Nat) :
    ∀ e ∈ (generateSingleAudio env n c d).events,
      e = Event.call n ∨ e = Event.write n ∨ ∃ t, e = Event.rlSleep t :=
  gsaGo_events_mem _ (Or.inl rfl) (Or.inr (Or.inl rfl))
    (fun t => Or.inr (Or.inr ⟨t, rfl⟩)) maxRetries 0 c [] (by simp)

/-- `generate_single_audio` never performs the inter-request sleep of
`generate_batch`. -/
theorem generateSingleAudio_no_interSleep (env : Nat → AdapterResult)
    (n c d t : Nat) :
    countEvent (Event.interSleep t) (generateSingleAudio env n c d).events = 0 := by
  simp only [countEvent, List.length_eq_zero, List.filter_eq_nil_iff]
  intro a ha
  rcases generateSingleAudio_events env n c d a ha with h | h | ⟨t', h⟩ <;>
    subst h <;> simp

/-- The `successful` counter after processing one non-skipped index. -/
def procCount (env : Nat → AdapterResult) (i : Nat) (st : BatchState)
    (s : Nat) : Nat :=
  if (generateSingleAudio env i st.callIdx 60).ok then s + 1 else s

/-- The generator state after processing one non-skipped index. -/
def procState (env : Nat → AdapterResult) (i : Nat) (st : BatchState) :
    BatchState :=
  ⟨if (generateSingleAudio env i st.callIdx 60).ok then i :: st.files
    else st.files,
   if (generateSingleAudio env i st.callIdx 60).ok then st.failed
    else st.failed ++ [(i, (generateSingleAudio env i st.callIdx 60).err)],
   (generateSingleAudio env i st.callIdx 60).callIdx⟩

/-- Batch-loop step on an index whose artifact exists: pure skip. -/
theorem genBatchGo_skip {env : Nat → AdapterResult} {delay endNum i : Nat}
    {rest : List Nat} {s : Nat} {st : BatchState} (hf : i ∈ st.files) :
    genBatchGo env delay endNum (i :: rest) s st =
      genBatchGo env delay endNum rest (s + 1) st := by
  rw [genBatchGo, if_pos hf]

/-- Batch-loop step on a missing index: the `successful` counter of the
result. -/
theorem genBatchGo_proc_fst {env : Nat → AdapterResult} {delay endNum i : Nat}
    {rest : List Nat} {s : Nat} {st : BatchState} (hf : i ∉ st.files) :
    (genBatchGo env delay endNum (i :: rest) s st).1 =
      (genBatchGo env delay endNum rest (procCount env i st s)
        (procState env i st)).1 := by
  rw [genBatchGo, if_neg hf]; rfl

/-- Batch-loop step on a missing index: the final state. -/
theorem genBatchGo_proc_state {env : Nat → AdapterResult} {delay endNum i : Nat}
    {rest : List Nat} {s : Nat} {st : BatchState} (hf : i ∉ st.files) :
    (genBatchGo env delay endNum (i :: rest) s st).2.1 =
      (genBatchGo env delay endNum rest (procCount env i st s)
        (procState env i st)).2.1 := by
  rw [genBatchGo, if_neg hf]; rfl

/-- Batch-loop step on a missing index: the emitted trace is the
single-item trace, then the inter-request sleep when `i < end_num`,
then the rest of the loop. -/
theorem genBatchGo_proc_trace {env : Nat → AdapterResult} {delay endNum i : Nat}
    {rest : List Nat} {s : Nat} {st : BatchState} (hf : i ∉ st.files) :
    (genBatchGo env delay endNum (i :: rest) s st).2.2 =
      (generateSingleAudio env i st.callIdx 60).events ++
      (if i < endNum then [Event.interSleep delay] else []) ++
      (genBatchGo env delay endNum rest (procCount env i st s)
        (procState env i st)).2.2 := by
  rw [genBatchGo, if_neg hf]; rfl

/-- If every index of the remaining list already has its artifact, the
batch loop only skips: it adds the list length to `successful`, leaves
the state untouched and performs no event at all. -/
theorem genBatchGo_all_skip (env : Nat → AdapterResult) (delay endNum : Nat) :
    ∀ (l : List Nat) (s : Nat) (st : BatchState),
      (∀ i ∈ l, i ∈ st.files) →
      genBatchGo env delay endNum l s st = (s + l.length, st, []) := by
  intro l
  induction l with
  | nil => intro s st _; simp [genBatchGo]
  | cons i rest ih =>
    intro s st h
    rw [genBatchGo, if_pos (h i (by simp))]
    rw [ih (s + 1) st (fun j hj => h j (by simp [hj]))]
    simp only [List.length_cons]
    rw [show s + 1 + rest.length = s + (rest.length + 1) by omega]

/-- Every artifact write performed by the batch loop is for an index
whose file did not exist when that index was checked; in particular it
was absent from the state the loop started from. -/
theorem genBatchGo_writes (env : Nat → AdapterResult) (delay endNum : Nat) :
    ∀ (l : List Nat) (s : Nat) (st : BatchState) (m : Nat),
      Event.write m ∈ (genBatchGo env delay endNum l s st).2.2 →
      m ∉ st.files := by
  intro l
  induction l with
  | nil => intro s st m hm; simp [genBatchGo] at hm
  | cons i rest ih =>
    intro s st m hm
    by_cases hf : i ∈ st.files
    · rw [genBatchGo_skip hf] at hm
      exact ih _ st m hm
    · rw [genBatchGo_proc_trace hf] at hm
      simp only [List.mem_append] at hm
      rcases hm with (hm | hm) | hm
      · -- events of the generate_single_audio call for i
        rcases generateSingleAudio_events env i st.callIdx 60 _ hm
          with h | h | ⟨t, h⟩
        · cases h
        · rw [Event.write.injEq] at h; subst h; exact hf
        · cases h
      · -- the optional inter-request sleep
        split at hm <;> simp at hm
      · -- the recursive tail: the file set only grows
        intro hmem
        have hnot := ih _ _ m hm
        apply hnot
        simp only [procState]
        by_cases hok : (generateSingleAudio env i st.callIdx 60).ok
        · simp only [hok, if_true]
          exact List.mem_cons_of_mem _ hmem
        · simp only [hok, if_false]
          exact hmem

/-- C5: over a range whose artifacts all already exist, `generate_batch`
issues zero Adapter calls, sleeps never, writes nothing, appends no
failure record (the state is unchanged and the trace is empty) and
returns `end - start + 1` (100% success via skips); and in general the
batch never writes an index whose artifact existed at its existence
check (hence at the start of the call). -/
theorem generateBatch_idempotent_skip :
    (∀ (env : Nat → AdapterResult) (startNum endNum delay : Nat)
        (st : BatchState),
      startNum ≤ endNum →
      (∀ i, startNum ≤ i → i ≤ endNum → i ∈ st.files) →
      generateBatch env startNum endNum delay st =
        (endNum - startNum + 1, st, [])) ∧
    (∀ (env : Nat → AdapterResult) (startNum endNum delay : Nat)
        (st : BatchState) (m : Nat),
      Event.write m ∈ (generateBatch env startNum endNum delay st).2.2 →
      m ∉ st.files) := by
  constructor
  · intro env startNum endNum delay st hle hall
    rw [generateBatch, genBatchGo_all_skip]
    · rw [List.length_range']
      rw [show 0 + (endNum + 1 - startNum) = endNum - startNum + 1 by omega]
    · intro i hi
      rw [List.mem_range'_1] at hi
      exact hall i hi.1 (by omega)
  · intro env startNum endNum delay st m hm
    exact genBatchGo_writes env delay endNum _ 0 st m hm

/-- C5 witness: range `[1,3]` with artifacts 1,2,3 present returns
`(3, unchanged state, empty trace)`; and a write in a run over `[1,1]`
from an empty file set implies `1` was absent initially. -/
theorem generateBatch_idempotent_skip_witness :
    generateBatch (fun _ => AdapterResult.ok) 1 3 20 ⟨[1, 2, 3], [], 0⟩ =
      (3, ⟨[1, 2, 3], [], 0⟩, []) ∧
    (1 : Nat) ∉ (BatchState.mk [] [] 0).files :=
  ⟨generateBatch_idempotent_skip.1 (fun _ => AdapterResult.ok) 1 3 20
      ⟨[1, 2, 3], [], 0⟩ (by decide)
      (by intro i h1 h3; interval_cases i <;> decide),
   generateBatch_idempotent_skip.2 (fun _ => AdapterResult.ok) 1 1 20
      ⟨[], [], 0⟩ 1 (by decide)⟩

/-- Core accounting of the batch loop: the final `failed_numbers` is
the initial list plus a block of new records whose indices form a
sublist of the processed index list, and `successful` plus the number
of new records accounts for every processed index. -/
theorem genBatchGo_failed_spec (env : Nat → AdapterResult) (delay endNum : Nat) :
    ∀ (l : List Nat) (s : Nat) (st : BatchState),
      ∃ d : List (Nat × Option String),
        (genBatchGo env delay endNum l s st).2.1.failed = st.failed ++ d ∧
        (genBatchGo env delay endNum l s st).1 + d.length = s + l.length ∧
        List.Sublist (d.map Prod.fst) l := by
  intro l
  induction l with
  | nil => intro s st; exact ⟨[], by simp [genBatchGo]⟩
  | cons i rest ih =>
    intro s st
    by_cases hf : i ∈ st.files
    · obtain ⟨d, h1, h2, h3⟩ := ih (s + 1) st
      refine ⟨d, ?_, ?_, ?_⟩
      · rw [genBatchGo_skip hf]; exact h1
      · rw [genBatchGo_skip hf, List.length_cons]; omega
      · exact h3.cons i
    · obtain ⟨d, h1, h2, h3⟩ := ih (procCount env i st s) (procState env i st)
      by_cases hok : (generateSingleAudio env i st.callIdx 60).ok
      · have hps : (procState env i st).failed = st.failed := by
          simp [procState, hok]
        have hpc : procCount env i st s = s + 1 := by
          simp [procCount, hok]
        refine ⟨d, ?_, ?_, h3.cons i⟩
        · rw [genBatchGo_proc_state hf, h1, hps]
        · rw [genBatchGo_proc_fst hf, List.length_cons]; omega
      · have hps : (procState env i st).failed =
            st.failed ++ [(i, (generateSingleAudio env i st.callIdx 60).err)] := by
          simp [procState, hok]
        have hpc : procCount env i st s = s := by
          simp [procCount, hok]
        refine ⟨(i, (generateSingleAudio env i st.callIdx 60).err) :: d, ?_, ?_, ?_⟩
        · rw [genBatchGo_proc_state hf, h1, hps]
          simp
        · rw [genBatchGo_proc_fst hf, List.length_cons]
          simp only [List.length_cons]
          omega
        · simpa using h3.cons₂ i

/-- C9: for `start ≤ end`, the returned success count (skips included)
plus the number of failure records appended during the call equals
`end - start + 1`, and the appended failure indices are strictly
increasing and lie within `[start, end]`. -/
theorem generateBatch_count_invariant (env : Nat → AdapterResult)
    (startNum endNum delay : Nat) (st : BatchState)
    (hle : startNum ≤ endNum) :
    ∃ d : List (Nat × Option String),
      (generateBatch env startNum endNum delay st).2.1.failed = st.failed ++ d ∧
      (generateBatch env startNum endNum delay st).1 + d.length =
        endNum - startNum + 1 ∧
      List.Chain' (· < ·) (d.map Prod.fst) ∧
      ∀ p ∈ d, startNum ≤ p.1 ∧ p.1 ≤ endNum := by
  simp only [generateBatch]
  obtain ⟨d, h1, h2, h3⟩ := genBatchGo_failed_spec env delay endNum
    (List.range' startNum (endNum + 1 - startNum)) 0 st
  refine ⟨d, h1, ?_, ?_, ?_⟩
  · rw [h2, List.length_range']; omega
  · exact ((List.pairwise_lt_range' startNum _).sublist h3).chain'
  · intro p hp
    have hpm : p.1 ∈ List.range' startNum (endNum + 1 - startNum) :=
      h3.subset (List.mem_map_of_mem Prod.fst hp)
    rw [List.mem_range'_1] at hpm
    omega

/-- C9 witness: range `[1,2]`, no files, Adapter always failing with a
plain error: both items fail, `successful = 0` and the two appended
records are `(1, template)`, `(2, template)`. -/
theorem generateBatch_count_invariant_witness :
    ∃ d : List (Nat × Option String),
      (generateBatch (fun _ => AdapterResult.err "boom") 1 2 20
          ⟨[], [], 0⟩).2.1.failed = [] ++ d ∧
      (generateBatch (fun _ => AdapterResult.err "boom") 1 2 20
          ⟨[], [], 0⟩).1 + d.length = 2 - 1 + 1 ∧
      List.Chain' (· < ·) (d.map Prod.fst) ∧
      ∀ p ∈ d, 1 ≤ p.1 ∧ p.1 ≤ 2 :=
  generateBatch_count_invariant (fun _ => AdapterResult.err "boom") 1 2 20
    ⟨[], [], 0⟩ (by decide)

/-- `countEvent` distributes over concatenation. -/
theorem countEvent_append (e : Event) (l1 l2 : List Event) :
    countEvent e (l1 ++ l2) = countEvent e l1 + countEvent e l2 := by
  simp [countEvent, List.filter_append]

/-- `generate_single_audio` never performs the retry-pass pause of
`retry_failed`. -/
theorem generateSingleAudio_no_retrySleep (env : Nat → AdapterResult)
    (n c d : Nat) :
    countEvent Event.retrySleep (generateSingleAudio env n c d).events = 0 := by
  simp only [countEvent, List.length_eq_zero, List.filter_eq_nil_iff]
  intro a ha
  rcases generateSingleAudio_events env n c d a ha with h | h | ⟨t', h⟩ <;>
    subst h <;> simp

/-- Counting the inter-request sleeps of the batch loop: one per
processed (non-skipped) index that is strictly below `end_num`, where
skipping is decided by the initial file set `F` as long as `F` agrees
with the current file set on the remaining indices. -/
theorem genBatchGo_interSleep_count (env : Nat → AdapterResult)
    (delay endNum : Nat) :
    ∀ (l : List Nat) (s : Nat) (st : BatchState) (F : List Nat),
      l.Nodup → (∀ j ∈ l, j ∈ st.files ↔ j ∈ F) →
      countEvent (Event.interSleep delay)
          (genBatchGo env delay endNum l s st).2.2 =
        (l.filter (fun i => decide (i ∉ F) && decide (i < endNum))).length := by
  intro l
  induction l with
  | nil => intro s st F _ _; simp [genBatchGo, countEvent]
  | cons i rest ih =>
    intro s st F hnd hmem
    have hndr : rest.Nodup := hnd.of_cons
    have hir : i ∉ rest := by
      intro hc
      exact (List.nodup_cons.mp hnd).1 hc
    by_cases hf : i ∈ st.files
    · have hiF : i ∈ F := (hmem i (by simp)).mp hf
      rw [genBatchGo_skip hf, List.filter_cons]
      rw [if_neg (by simp [hiF])]
      exact ih (s + 1) st F hndr (fun j hj => hmem j (by simp [hj]))
    · have hiF : i ∉ F := fun hc => hf ((hmem i (by simp)).mpr hc)
      rw [genBatchGo_proc_trace hf, countEvent_append, countEvent_append,
          generateSingleAudio_no_interSleep, List.filter_cons]
      have hrec : countEvent (Event.interSleep delay)
          (genBatchGo env delay endNum rest (procCount env i st s)
            (procState env i st)).2.2 =
          (rest.filter (fun j => decide (j ∉ F) && decide (j < endNum))).length := by
        refine ih _ _ F hndr ?_
        intro j hj
        have hji : j ≠ i := fun hc => hir (hc ▸ hj)
        simp only [procState]
        by_cases hok : (generateSingleAudio env i st.callIdx 60).ok
        · simp only [hok, if_true, List.mem_cons]
          rw [← hmem j (by simp [hj])]
          constructor
          · rintro (rfl | h)
            · exact absurd rfl hji
            · exact h
          · exact Or.inr
        · simp only [hok, if_false]
          exact hmem j (by simp [hj])
      rw [hrec]
      by_cases hlt : i < endNum
      · rw [if_pos hlt, if_pos (by simp [hiF, hlt])]
        simp [countEvent]
        omega
      · rw [if_neg hlt, if_neg (by simp [hiF, hlt])]
        simp [countEvent]

/-- C7 counterexample: the claim says the inter-request sleep follows
every skipped item and never follows a failed item.  Both parts fail:
over `[1,2]` with both artifacts present the trace has no inter-request
sleep at all although item 1 is skipped and non-final; over `[1,2]`
with no artifacts and a plainly-failing Adapter, the failed item 1 IS
followed by the inter-request sleep (one occurrence). -/
theorem generateBatch_interSleep_claim_false :
    countEvent (Event.interSleep 20)
      (generateBatch (fun _ => AdapterResult.ok) 1 2 20
        ⟨[1, 2], [], 0⟩).2.2 = 0 ∧
    countEvent (Event.interSleep 20)
      (generateBatch (fun _ => AdapterResult.err "boom") 1 2 20
        ⟨[], [], 0⟩).2.2 = 1 := by
  constructor <;> decide

/-- C7 (amended): the fixed inter-request delay is slept exactly once
after each non-skipped item (successful or failed alike) whose index is
strictly below `end_num`, never after the final index, and never after
a skipped item: the number of inter-request sleeps equals the number of
range indices below `end_num` missing from the initial file set. -/
theorem generateBatch_interSleep_placement (env : Nat → AdapterResult)
    (startNum endNum delay : Nat) (st : BatchState) :
    countEvent (Event.interSleep delay)
        (generateBatch env startNum endNum delay st).2.2 =
      ((List.range' startNum (endNum + 1 - startNum)).filter
        (fun i => decide (i ∉ st.files) && decide (i < endNum))).length := by
  simp only [generateBatch]
  exact genBatchGo_interSleep_count env delay endNum _ 0 st st.files
    (List.nodup_range' _ _) (fun j _ => Iff.rfl)

/-- Retry-pass step: the state evolves exactly as in the batch loop
(`procState`), and the trace is the single-item trace followed by the
fixed 0.5 pause. -/
theorem retryPass_cons {env : Nat → AdapterResult} {n : Nat}
    {e : Option String} {rest : List (Nat × Option String)}
    {st : BatchState} :
    retryPass env ((n, e) :: rest) st =
      ((retryPass env rest (procState env n st)).1,
       (generateSingleAudio env n st.callIdx 60).events ++ [Event.retrySleep] ++
         (retryPass env rest (procState env n st)).2) := by
  rw [retryPass]; rfl

/-- Unrolling one iteration of the `retry_failed` pass loop. -/
theorem retryFailedGo_succ {env : Nat → AdapterResult} {passes : Nat}
    {st : BatchState} :
    retryFailedGo env (passes + 1) st =
      if st.failed = [] then (st, [])
      else
        ((retryFailedGo env passes
            (retryPass env st.failed ⟨st.files, [], st.callIdx⟩).1).1,
         (retryPass env st.failed ⟨st.files, [], st.callIdx⟩).2 ++
           (retryFailedGo env passes
             (retryPass env st.failed ⟨st.files, [], st.callIdx⟩).1).2) := by
  rw [retryFailedGo]

/-- C6: `retry_failed` does nothing on an empty failed set; within one
pass every currently-failed item is re-attempted exactly once (one 0.5
pause per item, so `fl.length` pauses for a pass over `fl`); a pass
replaces the failed set with exactly the still-failing subsequence of
the items it re-attempted; and at most 3 passes run, each over the
previous pass's failed set (with the instance list cleared first),
stopping early as soon as the failed set is empty. -/
theorem retryFailed_passes (env : Nat → AdapterResult) :
    (∀ st : BatchState, st.failed = [] → retryFailed env st = (st, [])) ∧
    (∀ (fl : List (Nat × Option String)) (st : BatchState),
      countEvent Event.retrySleep (retryPass env fl st).2 = fl.length) ∧
    (∀ (fl : List (Nat × Option String)) (st : BatchState),
      ∃ d, (retryPass env fl st).1.failed = st.failed ++ d ∧
        List.Sublist (d.map Prod.fst) (fl.map Prod.fst)) ∧
    (∀ st : BatchState, st.failed ≠ [] →
      ∃ st1 t1,
        retryPass env st.failed ⟨st.files, [], st.callIdx⟩ = (st1, t1) ∧
        (st1.failed = [] → retryFailed env st = (st1, t1)) ∧
        (st1.failed ≠ [] →
          ∃ st2 t2,
            retryPass env st1.failed ⟨st1.files, [], st1.callIdx⟩ = (st2, t2) ∧
            (st2.failed = [] → retryFailed env st = (st2, t1 ++ t2)) ∧
            (st2.failed ≠ [] →
              ∃ st3 t3,
                retryPass env st2.failed ⟨st2.files, [], st2.callIdx⟩ =
                  (st3, t3) ∧
                retryFailed env st = (st3, t1 ++ (t2 ++ t3))))) := by
  refine ⟨?_, ?_, ?_, ?_⟩
  · intro st h
    rw [retryFailed, if_pos h]
  · intro fl
    induction fl with
    | nil => intro st; simp [retryPass, countEvent]
    | cons p rest ih =>
      intro st
      obtain ⟨n, e⟩ := p
      rw [retryPass_cons]
      simp only [countEvent_append, generateSingleAudio_no_retrySleep, ih]
      simp [countEvent]
      omega
  · intro fl
    induction fl with
    | nil => intro st; exact ⟨[], by simp [retryPass]⟩
    | cons p rest ih =>
      intro st
      obtain ⟨n, e⟩ := p
      obtain ⟨d, h1, h2⟩ := ih (procState env n st)
      rw [retryPass_cons]
      by_cases hok : (generateSingleAudio env n st.callIdx 60).ok
      · have hps : (procState env n st).failed = st.failed := by
          simp [procState, hok]
        exact ⟨d, by rw [h1, hps], by simpa using h2.cons n⟩
      · have hps : (procState env n st).failed =
            st.failed ++ [(n, (generateSingleAudio env n st.callIdx 60).err)] := by
          simp [procState, hok]
        refine ⟨(n, (generateSingleAudio env n st.callIdx 60).err) :: d, ?_, ?_⟩
        · rw [h1, hps]; simp
        · simpa using h2.cons₂ n
  · intro st hne
    refine ⟨(retryPass env st.failed ⟨st.files, [], st.callIdx⟩).1,
            (retryPass env st.failed ⟨st.files, [], st.callIdx⟩).2, rfl, ?_, ?_⟩
    · intro h1
      rw [retryFailed, if_neg hne,
          show (3 : Nat) = 2 + 1 from rfl, retryFailedGo_succ, if_neg hne,
          show (2 : Nat) = 1 + 1 from rfl, retryFailedGo_succ, if_pos h1]
      simp
    · intro h1ne
      refine ⟨_, _, rfl, ?_, ?_⟩
      · intro h2
        rw [retryFailed, if_neg hne,
            show (3 : Nat) = 2 + 1 from rfl, retryFailedGo_succ, if_neg hne,
            show (2 : Nat) = 1 + 1 from rfl, retryFailedGo_succ, if_neg h1ne,
            show (1 : Nat) = 0 + 1 from rfl, retryFailedGo_succ, if_pos h2]
        simp
      · intro h2ne
        refine ⟨_, _, rfl, ?_⟩
        rw [retryFailed, if_neg hne,
            show (3 : Nat) = 2 + 1 from rfl, retryFailedGo_succ, if_neg hne,
            show (2 : Nat) = 1 + 1 from rfl, retryFailedGo_succ, if_neg h1ne,
            show (1 : Nat) = 0 + 1 from rfl, retryFailedGo_succ, if_neg h2ne]
        simp [retryFailedGo]

/-- C6 witness: an empty failed set is returned untouched with no
events, and a pass over one failed item performs exactly one 0.5
pause. -/
theorem retryFailed_passes_witness :
    retryFailed (fun _ => AdapterResult.ok) ⟨[], [], 0⟩ = (⟨[], [], 0⟩, []) ∧
    countEvent Event.retrySleep
      (retryPass (fun _ => AdapterResult.ok) [(5, none)] ⟨[], [], 0⟩).2 = 1 :=
  ⟨(retryFailed_passes (fun _ => AdapterResult.ok)).1 ⟨[], [], 0⟩ rfl,
   (retryFailed_passes (fun _ => AdapterResult.ok)).2.1 [(5, none)] ⟨[], [], 0⟩⟩

/-- Python `str.strip()`: remove leading and trailing whitespace. -/
def stripStr (s : String) : String :=
  String.mk
    (((s.data.dropWhile Char.isWhitespace).reverse.dropWhile
        Char.isWhitespace).reverse)

/-- Python `s.startswith(c)` for a one-character prefix. -/
def pyStartsWith (s : String) (c : Char) : Bool :=
  match s.data with
  | [] => false
  | a :: _ => a = c

/-- Python `c in s` for a single character. -/
def pyContainsChar (s : String) (c : Char) : Bool := s.data.contains c

/-- The part of the line before the first `=`
(`key` of `line.split('=', 1)`). -/
def keyPart (l : String) : String :=
  String.mk (l.data.takeWhile (fun c => c ≠ '='))

/-- The part of the line after the first `=`
(`value` of `line.split('=', 1)`). -/
def valPart (l : String) : String :=
  String.mk ((l.data.dropWhile (fun c => c ≠ '=')).drop 1)

/-- `os.environ[k] = v` on an environment modelled as a partial map. -/
def envSet (env : String → Option String) (k v : String) :
    String → Option String :=
  fun s => if s = k then some v else env s

/-- One iteration of the line loop of `Config._load_config`
(`src/config.py` lines 26-31): strip the line; if it is non-empty, does
not start with `#` and contains `=`, split at the first `=` and set the
stripped key to the stripped value in the process environment. -/
def processLine (env : String → Option String) (line : String) :
    String → Option String :=
  let l := stripStr line
  if l ≠ "" ∧ ¬ pyStartsWith l '#' then
    if pyContainsChar l '=' then
      envSet env (stripStr (keyPart l)) (stripStr (valPart l))
    else env
  else env

/-- `Config._load_config` over the lines of an existing config file
(`src/config.py` lines 21-31). -/
def loadConfig (env0 : String → Option String) (lines : List String) :
    String → Option String :=
  lines.foldl processLine env0

/-- `Config.is_configured` (`src/config.py` lines 38-40):
`os.getenv('OPENAI_API_KEY') is not None`. -/
def isConfigured (env : String → Option String) : Bool :=
  (env "OPENAI_API_KEY").isSome

/-- The startup credential gate of `main`
(`src/generate_numbers.py` lines 384-392): load the config file into
the environment; if no `OPENAI_API_KEY` results, `sys.exit(1)` fires
before any generator (hence any network activity) is created;
otherwise the key is used. -/
def mainStartup (env0 : String → Option String) (lines : List String) :
    Except Nat String :=
  let env := loadConfig env0 lines
  match env "OPENAI_API_KEY" with
  | none => Except.error 1
  | some k => Except.ok k

/-- C8: config loading merges the key=value file into the process
environment line by line: a stripped line that is non-empty, does not
start with `#` and contains `=` sets the variable named by the stripped
text before the first `=` to the stripped text after it; a line
starting with `#` is ignored; and if after loading no `OPENAI_API_KEY`
is present, `main` exits with code 1 before any network activity. -/
theorem loadConfig_merge_and_credential_gate
    (env0 : String → Option String) (ls : List String) (line : String) :
    (stripStr line ≠ "" → ¬ pyStartsWith (stripStr line) '#' →
      pyContainsChar (stripStr line) '=' = true →
      loadConfig env0 (ls ++ [line]) =
        envSet (loadConfig env0 ls)
          (stripStr (keyPart (stripStr line)))
          (stripStr (valPart (stripStr line)))) ∧
    (pyStartsWith (stripStr line) '#' = true →
      loadConfig env0 (ls ++ [line]) = loadConfig env0 ls) ∧
    (∀ lines, loadConfig env0 lines "OPENAI_API_KEY" = none →
      mainStartup env0 lines = Except.error 1) := by
  have hstep : loadConfig env0 (ls ++ [line]) =
      processLine (loadConfig env0 ls) line := by
    simp [loadConfig, List.foldl_append]
  refine ⟨?_, ?_, ?_⟩
  · intro h1 h2 h3
    rw [hstep, processLine]
    rw [if_pos ⟨h1, h2⟩, if_pos h3]
  · intro h
    rw [hstep, processLine]
    rw [if_neg (by simp [h])]
  · intro lines h
    simp only [mainStartup, h]

/-- C8 witness: a comment line is ignored, a `KEY = value` line sets
the stripped key to the stripped value, and a file with no credential
makes startup exit with code 1. -/
theorem loadConfig_merge_and_credential_gate_witness :
    loadConfig (fun _ => none) (["# comment"] ++ [" OPENAI_API_KEY = sk-123 "]) =
      envSet (loadConfig (fun _ => none) ["# comment"])
        (stripStr (keyPart (stripStr " OPENAI_API_KEY = sk-123 ")))
        (stripStr (valPart (stripStr " OPENAI_API_KEY = sk-123 "))) ∧
    loadConfig (fun _ => none) (["x=1"] ++ ["# note"]) =
      loadConfig (fun _ => none) ["x=1"] ∧
    mainStartup (fun _ => none) ["# only comments"] = Except.error 1 :=
  ⟨(loadConfig_merge_and_credential_gate (fun _ => none) ["# comment"]
      " OPENAI_API_KEY = sk-123 ").1 (by decide) (by decide) (by decide),
   (loadConfig_merge_and_credential_gate (fun _ => none) ["x=1"] "# note").2.1
      (by decide),
   (loadConfig_merge_and_credential_gate (fun _ => none) [] "").2.2
      ["# only comments"] rfl⟩
